import Mathlib

/-!
# Verification of the FFTWpp layout/plan/wisdom core

Shallow embedding of the FFTWpp sources (the `FFTWpp/src` snapshot) in Lean 4.
C++ `int` values are modelled as `Int`; C++ integer division (truncation
toward zero) is `Int.div`.  The external transform engine (fftw3) is modelled
by an explicit state that counts build-plan / destroy-plan calls and tracks
live handles; its numeric kernels are outside the scope of the claims.
Fallible operations return `Option`.
-/

namespace FFTWpp

/-- The values of the engine's `fftw_r2r_kind` enumeration, wrapped by the
class `RealKind` of `Options.h`.  The wrapper holds exactly one enum value, so
the wrapper and the enumeration are collapsed into one inductive type; the
constants `R2HC`, ..., `RODFT11` of `Options.h` are the constructors. -/
inductive RealKind
  | R2HC
  | HC2R
  | DHT
  | REDFT00
  | REDFT10
  | REDFT01
  | REDFT11
  | RODFT00
  | RODFT10
  | RODFT01
  | RODFT11
deriving DecidableEq, Repr

/-- The switch of `RealKind::Inverse` (Options.h:226-253).  The `default`
branch of the switch is unreachable for the eleven enumeration values. -/
def RealKind.Inverse : RealKind → RealKind
  | .R2HC => .HC2R
  | .HC2R => .R2HC
  | .DHT => .DHT
  | .REDFT00 => .REDFT00
  | .REDFT10 => .REDFT01
  | .REDFT01 => .REDFT10
  | .REDFT11 => .REDFT11
  | .RODFT00 => .RODFT00
  | .RODFT10 => .RODFT01
  | .RODFT01 => .RODFT10
  | .RODFT11 => .RODFT11

/-- The switch of `RealKind::LogicalDimension` (Options.h:261-288). -/
def RealKind.LogicalDimension : RealKind → Int → Int
  | .R2HC, n => n
  | .HC2R, n => n
  | .DHT, n => n
  | .REDFT00, n => 2 * (n - 1)
  | .REDFT10, n => 2 * n
  | .REDFT01, n => 2 * n
  | .REDFT11, n => 2 * n
  | .RODFT00, n => 2 * (n + 1)
  | .RODFT10, n => 2 * n
  | .RODFT01, n => 2 * n
  | .RODFT11, n => 2 * n

/-- The two values of `enum class DirectionOption` (Flags.h:13), wrapped by
the class `Direction` of Flags.h. -/
inductive Direction
  | Forward
  | Backward
deriving DecidableEq, Repr

/-- The values of `enum class KindOption` (Flags.h:45-56), wrapped by the
class `Kind` of Flags.h; the wrapper holds exactly one enum value. -/
inductive Kind
  | HC
  | DHT
  | DCTI
  | DCTII
  | DCTIII
  | DCTIV
  | DSTI
  | DSTII
  | DSTIII
  | DSTIV
deriving DecidableEq, Repr

/-- The switch of `Kind::operator()(Direction)` (Flags.h:63-148), mapping a
kind and a direction to the engine's `fftw_r2r_kind` code. -/
def Kind.call : Kind → Direction → RealKind
  | .HC, d => if d = .Forward then .R2HC else .HC2R
  | .DHT, d => if d = .Forward then .DHT else .DHT
  | .DCTI, d => if d = .Forward then .REDFT00 else .REDFT00
  | .DCTII, d => if d = .Forward then .REDFT10 else .REDFT01
  | .DCTIII, d => if d = .Forward then .REDFT01 else .REDFT10
  | .DCTIV, d => if d = .Forward then .REDFT11 else .REDFT11
  | .DSTI, d => if d = .Forward then .RODFT00 else .RODFT00
  | .DSTII, d => if d = .Forward then .RODFT10 else .RODFT01
  | .DSTIII, d => if d = .Forward then .RODFT01 else .RODFT10
  | .DSTIV, d => if d = .Forward then .RODFT11 else .RODFT11

/-- The switch of `Kind::LogicalSize` (Flags.h:150-187); the `default` branch
covers `HC` and `DHT`. -/
def Kind.LogicalSize : Kind → Int → Int
  | .DCTI, n => 2 * (n - 1)
  | .DCTII, n => 2 * n
  | .DCTIII, n => 2 * n
  | .DCTIV, n => 2 * n
  | .DSTI, n => 2 * (n + 1)
  | .DSTII, n => 2 * n
  | .DSTIII, n => 2 * n
  | .DSTIV, n => 2 * n
  | .HC, n => n
  | .DHT, n => n

/-- The values of `enum class PlanOption` (Flags.h:208-217), wrapped by the
class `PlanFlag` of Flags.h; the wrapper holds exactly one enum value. -/
inductive PlanOption
  | Estimate
  | Measure
  | Patient
  | Exhaustive
  | WisdomOnly
  | DestroyInput
  | PreserveInput
  | Unaligned
deriving DecidableEq, Repr

/-- The class `Flag` of Options.h: a type-safe wrapper around the engine's
`unsigned` planner-flag bitmask. -/
structure Flag where
  flag : Nat
deriving DecidableEq, Repr

/-- The constant `Estimate` of Options.h, wrapping the engine's
`FFTW_ESTIMATE` bit (value `1 << 6` in the engine's header). -/
def Flag.Estimate : Flag := ⟨64⟩

/-- The constant `Measure` of Options.h (`FFTW_MEASURE`, value `0`). -/
def Flag.Measure : Flag := ⟨0⟩

/-- The constant `Patient` of Options.h (`FFTW_PATIENT`, value `1 << 5`). -/
def Flag.Patient : Flag := ⟨32⟩

/-- The storage parameters held by the class `DataLayout` (Views.h:129-196):
`rank`, per-axis logical sizes `n`, batch count `howMany`, per-axis storage
sizes `embed`, `stride` and `dist`.  All are C++ `int` data, modelled as
`Int`; the two shared-pointer vectors are modelled as lists. -/
structure DataLayout where
  rank : Int
  n : List Int
  howMany : Int
  embed : List Int
  stride : Int
  dist : Int
deriving DecidableEq, Repr

/-- The body of `DataLayout::EqualStorage` (Views.h:174-180): four early
returns comparing `rank`, `howMany`, `n` and `embed`; `stride` and `dist` are
not read. -/
def DataLayout.EqualStorage (l other : DataLayout) : Bool :=
  if l.rank != other.rank then false
  else if l.howMany != other.howMany then false
  else if l.n != other.n then false
  else if l.embed != other.embed then false
  else true

/-- The four iterator-pair categories distinguished by the concepts
`C2CIteratorPair`, `C2RIteratorPair`, `R2CIteratorPair`, `R2RIteratorPair`
(Concepts.h), which select the `if constexpr` branches of `Transformable`,
`MakePlan` and `Execute`. -/
inductive PairKind
  | C2C
  | C2R
  | R2C
  | R2R
deriving DecidableEq, Repr

/-- `std::ranges::equal` with a binary predicate over two int ranges: true
when the lengths agree and the predicate holds pairwise. -/
def rangesEqual (p : Int → Int → Bool) : List Int → List Int → Bool
  | [], [] => true
  | [], _ :: _ => false
  | _ :: _, [] => false
  | x :: xs, y :: ys => p x y && rangesEqual p xs ys

/-- The body of `DataView::Transformable` (Views.h:289-316).  The trailing
axis is reached through `views::reverse | views::take(1)`, the remaining axes
through `views::reverse | views::drop(1)`; `y / 2` is C++ `int` division,
which truncates toward zero (`Int.tdiv`). -/
def Transformable (k : PairKind) (a b : DataLayout) : Bool :=
  if a.rank != b.rank then false
  else if a.howMany != b.howMany then false
  else
    match k with
    | PairKind.C2C => a.n == b.n
    | PairKind.R2R => a.n == b.n
    | PairKind.C2R =>
        rangesEqual (fun x y => x == Int.tdiv y 2 + 1)
            (a.n.reverse.take 1) (b.n.reverse.take 1)
          && rangesEqual (fun x y => x == y)
            (a.n.reverse.drop 1) (b.n.reverse.drop 1)
    | PairKind.R2C =>
        rangesEqual (fun x y => Int.tdiv x 2 + 1 == y)
            (a.n.reverse.take 1) (b.n.reverse.take 1)
          && rangesEqual (fun x y => x == y)
            (a.n.reverse.drop 1) (b.n.reverse.drop 1)

/-- A relation on the trailing axes of two size lists: both lists are empty,
or both end in elements related by `q`. -/
def lastRel (q : Int → Int → Prop) (xs ys : List Int) : Prop :=
  match xs.getLast?, ys.getLast? with
  | some x, some y => q x y
  | none, none => True
  | some _, none => False
  | none, some _ => False

/-- The dimension relation of the spec's View invariant, written with
`getLast?`/`dropLast` and mathematical floor division (`/` on `Int` is floor
division for a positive divisor): for a real-source/complex-destination pair
the trailing axis of the complex view's `n` equals `floor(realTrailingN/2)+1`
and all other axes match; for C2C and R2R all axes match.  Together with the
rank and batch-count equalities this is the claimed characterisation of
`Transformable`. -/
def specTransformable (k : PairKind) (a b : DataLayout) : Prop :=
  a.rank = b.rank ∧ a.howMany = b.howMany ∧
    match k with
    | PairKind.C2C => a.n = b.n
    | PairKind.R2R => a.n = b.n
    | PairKind.C2R =>
        lastRel (fun x y => x = y / 2 + 1) a.n b.n ∧ a.n.dropLast = b.n.dropLast
    | PairKind.R2C =>
        lastRel (fun x y => x / 2 + 1 = y) a.n b.n ∧ a.n.dropLast = b.n.dropLast

/-- The asserted preconditions of `Plan::Execute(newIn, newOut)`
(Plan.h:296-312): `EqualStorage` of each new view with the originally bound
view of the same side, and mutual `Transformable` of the new views. -/
def ExecutePrecondition (k : PairKind) (origIn origOut newIn newOut : DataLayout) : Bool :=
  origIn.EqualStorage newIn && origOut.EqualStorage newOut && Transformable k newIn newOut

/-- The first `Plan::Normalisation` overload (Plan.h:261-266), used for the
C2C, R2C and C2R cases: `1 / std::reduce(_out.NView(), 1, multiplies)`.  The
floating-point quotient is modelled exactly in `ℚ`. -/
def NormalisationGeneral (outL : DataLayout) : ℚ :=
  1 / ((outL.n.foldl (fun acc x => acc * x) 1 : Int) : ℚ)

/-- The R2R `Plan::Normalisation` overload (Plan.h:268-279): `dim` starts at
`1` and is multiplied by `kind.LogicalSize(n)` while walking `_in.NView()`
and the kind vector in lockstep (the loop is driven by the `n` iterator, and
the Plan invariant `kinds.size() == rank` makes the walk a zip).  The
floating-point quotient is modelled exactly in `ℚ`. -/
def NormalisationR2R (inL : DataLayout) (kinds : List Kind) : ℚ :=
  1 / (((inL.n.zip kinds).foldl (fun dim p => dim * p.2.LogicalSize p.1) 1 : Int) : ℚ)

/-- The data a `Plan` object carries besides the engine handle (Plan.h:371-379):
the two bound views' layouts, the planner flag, the direction and the shared
kind vector (empty for non-R2R plans). -/
structure PlanParams where
  inLayout : DataLayout
  outLayout : DataLayout
  flag : PlanOption
  direction : Direction
  kinds : List Kind
deriving DecidableEq, Repr

/-- The engine side of the plan lifecycle: a counter supplying fresh handle
ids, the list of live handles, and counts of build-plan and destroy-plan
calls made so far. -/
structure Engine where
  nextHandle : Nat
  live : List Nat
  buildCalls : Nat
  destroyCalls : Nat
deriving DecidableEq, Repr

/-- One engine build-plan call (`fftw_plan_many_*`): returns a fresh handle
and records the call. -/
def Engine.buildPlan (e : Engine) : Option Nat × Engine :=
  (some e.nextHandle,
    { nextHandle := e.nextHandle + 1
      live := e.nextHandle :: e.live
      buildCalls := e.buildCalls + 1
      destroyCalls := e.destroyCalls })

/-- A `Plan` object: its parameters and the stored engine handle (the
`std::variant` of native plan pointers, null modelled as `none`). -/
structure PlanState where
  params : PlanParams
  handle : Option Nat
deriving DecidableEq, Repr

/-- `Plan::IsNull` (Plan.h:259): the stored pointer compares equal to
`nullptr`. -/
def PlanState.IsNull (p : PlanState) : Bool :=
  p.handle.isNone

/-- `Plan::Destroy` (Plan.h:385-407): if the stored pointer is non-null, call
the engine's destroy-plan operation and set the pointer to null; otherwise do
nothing. -/
def PlanState.Destroy (p : PlanState) (e : Engine) : PlanState × Engine :=
  match p.handle with
  | some h =>
      ({ p with handle := none },
        { e with live := e.live.erase h, destroyCalls := e.destroyCalls + 1 })
  | none => (p, e)

/-- The destructor `~Plan` (Plan.h:243): it calls `Destroy()`. -/
def PlanState.destructor (p : PlanState) (e : Engine) : PlanState × Engine :=
  PlanState.Destroy p e

/-- A `Plan` constructor (Plan.h:173-195): store the parameters and the
handle returned by `MakePlan()`, which performs one engine build-plan call. -/
def Plan.construct (params : PlanParams) (e : Engine) : PlanState × Engine :=
  let r := e.buildPlan
  ({ params := params, handle := r.1 }, r.2)

/-- The move constructor `Plan(Plan&&)` (Plan.h:207-215): the members are
moved from `other`, the `_plan` member is initialised with `MakePlan()` — a
fresh engine build-plan call — and then `other.Destroy()` runs in the body.
Returns (destination, source after the move, engine). -/
def Plan.moveConstruct (other : PlanState) (e : Engine) : PlanState × PlanState × Engine :=
  let r := e.buildPlan
  let dest : PlanState := { params := other.params, handle := r.1 }
  let s := PlanState.Destroy other r.2
  (dest, s.1, s.2)

/-- The kind-array preparation of the R2R `MakePlan` (Plan.h:491-520): the
assertion `_kinds->size() == _in.Rank()` followed by `std::transform` of each
stored kind through `operator()(direction)` into the engine's kind array.
`none` models the assertion failing. -/
def r2rEngineKinds (rank : Int) (direction : Direction) (kinds : List Kind) :
    Option (List RealKind) :=
  if (kinds.length : Int) = rank then some (kinds.map (fun k => k.call direction)) else none

/-- The kind sequence as the spec describes it for R2R plan construction:
brought to length `rank` by repeating the last supplied value whenever fewer
than `rank` kinds are supplied. -/
def specPaddedKinds (rank : Nat) (kinds : List Kind) : List Kind :=
  match kinds.getLast? with
  | none => []
  | some k => kinds ++ List.replicate (rank - kinds.length) k

/-- The assert condition of `ImportWisdom` (Wisdom.h:19-22): the wrapper
stores the engine's return value in `io` and asserts `io == 0`.  `true`
models the assertion passing (silent completion), `false` models the
assertion firing (a fatal signalled error). -/
def ImportWisdomAssertPasses (io : Int) : Bool :=
  io == 0

/-- The assert condition of `ExportWisdom` (Wisdom.h:14-17): identical shape,
`assert(io == 0)` on the engine's return value. -/
def ExportWisdomAssertPasses (io : Int) : Bool :=
  io == 0

/-- Modelled from the spec: the engine's success/failure report for the
wisdom import and export calls.  The engine itself is an external collaborator (its
sources are not part of this repository); the spec states that both
operations are fallible and the engine reports success or failure, which the
fftw engine does through its return value — nonzero reports success, zero
reports failure. -/
def engineReportsSuccess (io : Int) : Bool :=
  io != 0

/-- The number of engine build-plan calls made by the `GenerateWisdom`
overload of Wisdom.h:32-50 (C2C / R2C / C2R): an early `return` when
`flag == Estimate`, otherwise one plan construction when `forward` and one
when `backward`. -/
def generateWisdomPlansBuilt (flag : Flag) (forward backward : Bool) : Nat :=
  if flag = Flag.Estimate then 0
  else (if forward then 1 else 0) + (if backward then 1 else 0)

/-- The number of engine build-plan calls made by the R2R `GenerateWisdom`
overload of Wisdom.h:57-73: the same early `return` on `flag == Estimate`,
otherwise one plan construction when `forward` and one when `backward`.  The
kind list only feeds the constructed plans. -/
def generateWisdomPlansBuiltR2R (flag : Flag) (kinds : List RealKind)
    (forward backward : Bool) : Nat :=
  if flag = Flag.Estimate then 0
  else (if forward then 1 else 0) + (if backward then 1 else 0)

/-- The number of engine build-plan calls made by the `GenerateWisdom`
overloads of Plan.h:524-552 (the `DataLayout` overloads, both the
C2C/C2R/R2C one and the R2R one): a plan is constructed unconditionally, and
a second one when `both` is set; the flag is never inspected. -/
def generateWisdomDataLayoutPlansBuilt (flag : PlanOption) (both : Bool) : Nat :=
  1 + (if both then 1 else 0)

/-- A concrete rank-1 layout of four contiguous elements, used for closed
instances of the theorems. -/
def demoLayout : DataLayout :=
  { rank := 1, n := [4], howMany := 1, embed := [4], stride := 1, dist := 4 }

/-- Concrete plan parameters over `demoLayout`. -/
def demoParams : PlanParams :=
  { inLayout := demoLayout, outLayout := demoLayout, flag := PlanOption.Estimate
    direction := Direction.Forward, kinds := [] }

/-- An engine state in which one plan has already been built: handle `0` is
live and one build-plan call has happened. -/
def demoEngine : Engine :=
  { nextHandle := 1, live := [0], buildCalls := 1, destroyCalls := 0 }

/-- A built plan holding handle `0` of `demoEngine`. -/
def demoPlan : PlanState :=
  { params := demoParams, handle := some 0 }

/-- A concrete rank-2 real-side layout with trailing axis `5`. -/
def demoRealLayout : DataLayout :=
  { rank := 2, n := [3, 5], howMany := 1, embed := [3, 5], stride := 1, dist := 15 }

/-- A concrete rank-2 complex-side layout whose trailing axis is
`5 / 2 + 1 = 3`, matching `demoRealLayout` for an R2C transform. -/
def demoComplexLayout : DataLayout :=
  { rank := 2, n := [3, 3], howMany := 1, embed := [3, 3], stride := 1, dist := 9 }

end FFTWpp

namespace FFTWpp

/-! ## Helper lemmas -/

/-- `rangesEqual` with the equality predicate decides list equality. -/
theorem rangesEqual_eq_iff : ∀ (l1 l2 : List Int),
    rangesEqual (fun x y => x == y) l1 l2 = true ↔ l1 = l2
  | [], [] => by simp [rangesEqual]
  | [], _ :: _ => by simp [rangesEqual]
  | _ :: _, [] => by simp [rangesEqual]
  | x :: xs, y :: ys => by
      simp [rangesEqual, rangesEqual_eq_iff xs ys]

/-- C++ truncating division by two agrees with floor division on nonnegative
dividends. -/
theorem tdiv_two_eq_div (a : Int) (h : 0 ≤ a) : Int.tdiv a 2 = a / 2 := by
  obtain ⟨n, rfl⟩ := Int.eq_ofNat_of_zero_le h
  rfl

/-- The trailing-axis/remaining-axes comparison pattern of `Transformable`,
characterised through `lastRel` and `dropLast`. -/
theorem trailing_iff (p : Int → Int → Bool) (q : Int → Int → Prop) (xs ys : List Int)
    (hpq : ∀ x y, x ∈ xs → y ∈ ys → (p x y = true ↔ q x y)) :
    (rangesEqual p (xs.reverse.take 1) (ys.reverse.take 1) = true
        ∧ rangesEqual (fun x y => x == y) (xs.reverse.drop 1) (ys.reverse.drop 1) = true)
      ↔ lastRel q xs ys ∧ xs.dropLast = ys.dropLast := by
  rcases List.eq_nil_or_concat xs with rfl | ⟨xs', x, rfl⟩ <;>
    rcases List.eq_nil_or_concat ys with rfl | ⟨ys', y, rfl⟩
  · simp [rangesEqual, lastRel]
  · simp [rangesEqual, lastRel, List.concat_eq_append, List.reverse_append,
      List.getLast?_concat]
  · simp [rangesEqual, lastRel, List.concat_eq_append, List.reverse_append,
      List.getLast?_concat]
  · have hx := hpq x y (by simp [List.concat_eq_append]) (by simp [List.concat_eq_append])
    simp [rangesEqual, lastRel, List.concat_eq_append, List.reverse_append,
      List.getLast?_concat, List.dropLast_concat, rangesEqual_eq_iff, List.reverse_inj, hx]

/-- Folding multiplication of `LogicalSize` values equals the product of the
mapped list. -/
theorem foldl_logicalSize : ∀ (l : List (Int × Kind)) (init : Int),
    l.foldl (fun dim p => dim * p.2.LogicalSize p.1) init
      = init * (l.map (fun p => p.2.LogicalSize p.1)).prod
  | [], init => by simp
  | x :: xs, init => by
      simp [List.foldl_cons, foldl_logicalSize xs, List.map_cons, List.prod_cons]
      ring

/-- Folding integer multiplication equals the list product. -/
theorem foldl_mul_int : ∀ (l : List Int) (init : Int),
    l.foldl (fun acc x => acc * x) init = init * l.prod
  | [], init => by simp
  | x :: xs, init => by
      simp [List.foldl_cons, foldl_mul_int xs, List.prod_cons]
      ring

/-- An R2R `Transformable` check forces the two size lists to agree. -/
theorem transformable_r2r_n_eq (a b : DataLayout)
    (h : Transformable PairKind.R2R a b = true) : a.n = b.n := by
  unfold Transformable at h
  by_cases h1 : a.rank = b.rank
  · by_cases h2 : a.howMany = b.howMany
    · simpa [h1, h2] using h
    · simp [h1, h2] at h
  · simp [h1] at h

end FFTWpp

namespace FFTWpp

/-! ## Claim theorems -/

/-- Claim C3: for every R2R kind and every size `n`, the logical-dimension
lookups (`RealKind::LogicalDimension` and `Kind::LogicalSize`) return `n` for
the half-complex and Hartley kinds, `2*(n-1)` for the first-kind cosine
transform, `2*(n+1)` for the first-kind sine transform, and `2*n` for every
remaining cosine/sine kind. -/
theorem logical_dimension_table (n : Int) :
    RealKind.R2HC.LogicalDimension n = n
      ∧ RealKind.HC2R.LogicalDimension n = n
      ∧ RealKind.DHT.LogicalDimension n = n
      ∧ RealKind.REDFT00.LogicalDimension n = 2 * (n - 1)
      ∧ RealKind.RODFT00.LogicalDimension n = 2 * (n + 1)
      ∧ RealKind.REDFT10.LogicalDimension n = 2 * n
      ∧ RealKind.REDFT01.LogicalDimension n = 2 * n
      ∧ RealKind.REDFT11.LogicalDimension n = 2 * n
      ∧ RealKind.RODFT10.LogicalDimension n = 2 * n
      ∧ RealKind.RODFT01.LogicalDimension n = 2 * n
      ∧ RealKind.RODFT11.LogicalDimension n = 2 * n
      ∧ Kind.HC.LogicalSize n = n
      ∧ Kind.DHT.LogicalSize n = n
      ∧ Kind.DCTI.LogicalSize n = 2 * (n - 1)
      ∧ Kind.DSTI.LogicalSize n = 2 * (n + 1)
      ∧ Kind.DCTII.LogicalSize n = 2 * n
      ∧ Kind.DCTIII.LogicalSize n = 2 * n
      ∧ Kind.DCTIV.LogicalSize n = 2 * n
      ∧ Kind.DSTII.LogicalSize n = 2 * n
      ∧ Kind.DSTIII.LogicalSize n = 2 * n
      ∧ Kind.DSTIV.LogicalSize n = 2 * n :=
  ⟨rfl, rfl, rfl, rfl, rfl, rfl, rfl, rfl, rfl, rfl, rfl, rfl, rfl, rfl, rfl,
    rfl, rfl, rfl, rfl, rfl, rfl⟩

/-- Claim C8: for every R2R kind, applying the inverse lookup twice returns
the original kind. -/
theorem realKind_inverse_involution (k : RealKind) : k.Inverse.Inverse = k := by
  cases k <;> rfl

/-- Claim C4: `Transformable` returns true if and only if the ranks are
equal, the `howMany` counts are equal, and the per-kind dimension relation
holds — for a real/complex pair the trailing complex axis equals
`floor(realTrailingN/2)+1` with all other axes matching, and for C2C and R2R
pairs all axes matching exactly.  The hypotheses are the Layout invariant
that all axis sizes are positive. -/
theorem transformable_iff_spec (k : PairKind) (a b : DataLayout)
    (ha : ∀ x ∈ a.n, 0 < x) (hb : ∀ x ∈ b.n, 0 < x) :
    Transformable k a b = true ↔ specTransformable k a b := by
  unfold Transformable specTransformable
  cases k
  case C2C =>
    by_cases h1 : a.rank = b.rank
    · by_cases h2 : a.howMany = b.howMany
      · simp [h1, h2]
      · simp [h1, h2]
    · simp [h1]
  case R2R =>
    by_cases h1 : a.rank = b.rank
    · by_cases h2 : a.howMany = b.howMany
      · simp [h1, h2]
      · simp [h1, h2]
    · simp [h1]
  case C2R =>
    by_cases h1 : a.rank = b.rank
    · by_cases h2 : a.howMany = b.howMany
      · have hpq : ∀ x y, x ∈ a.n → y ∈ b.n →
            (((fun x y => x == Int.tdiv y 2 + 1) x y) = true ↔ x = y / 2 + 1) := by
          intro x y _ hy
          rw [show ((fun x y => x == Int.tdiv y 2 + 1) x y) = (x == Int.tdiv y 2 + 1) from rfl,
            tdiv_two_eq_div y (le_of_lt (hb y hy))]
          exact beq_iff_eq
        simp only [h1, h2, bne_self_eq_false, Bool.false_eq_true, if_false,
          eq_self_iff_true, true_and, Bool.and_eq_true]
        exact trailing_iff _ _ a.n b.n hpq
      · simp [h1, h2]
    · simp [h1]
  case R2C =>
    by_cases h1 : a.rank = b.rank
    · by_cases h2 : a.howMany = b.howMany
      · have hpq : ∀ x y, x ∈ a.n → y ∈ b.n →
            (((fun x y => Int.tdiv x 2 + 1 == y) x y) = true ↔ x / 2 + 1 = y) := by
          intro x y hx _
          rw [show ((fun x y => Int.tdiv x 2 + 1 == y) x y) = (Int.tdiv x 2 + 1 == y) from rfl,
            tdiv_two_eq_div x (le_of_lt (ha x hx))]
          exact beq_iff_eq
        simp only [h1, h2, bne_self_eq_false, Bool.false_eq_true, if_false,
          eq_self_iff_true, true_and, Bool.and_eq_true]
        exact trailing_iff _ _ a.n b.n hpq
      · simp [h1, h2]
    · simp [h1]

/-- Claim C4 witness: a concrete rank-2 R2C pair with trailing axes `5` and
`5 / 2 + 1 = 3`, on which both sides of the equivalence hold. -/
theorem transformable_iff_spec_witness :
    Transformable PairKind.R2C demoRealLayout demoComplexLayout = true
      ↔ specTransformable PairKind.R2C demoRealLayout demoComplexLayout :=
  transformable_iff_spec PairKind.R2C demoRealLayout demoComplexLayout
    (by decide) (by decide)

end FFTWpp

namespace FFTWpp

/-- Claim C1 counterexample: on a concrete built plan, the move constructor
neither transfers the existing engine handle (the destination holds a fresh
handle) nor avoids the engine's build-plan operation (the build count
grows). -/
theorem plan_move_counterexample :
    ¬ ((Plan.moveConstruct demoPlan demoEngine).1.handle = demoPlan.handle
        ∧ (Plan.moveConstruct demoPlan demoEngine).2.2.buildCalls
            = demoEngine.buildCalls) := by
  decide

/-- Claim C1 (amended): move construction leaves the moved-from Plan null
(`IsNull() == true`) and the destination equal to a freshly built Plan with
the same parameters, but it does not transfer the handle: it performs exactly
one engine build-plan call and then destroys the source's handle. -/
theorem plan_move_rebuilds_amended (other : PlanState) (e : Engine) :
    (Plan.moveConstruct other e).2.1.IsNull = true
      ∧ (Plan.moveConstruct other e).1 = (Plan.construct other.params e).1
      ∧ (Plan.moveConstruct other e).2.2.buildCalls = e.buildCalls + 1 := by
  cases h : other.handle <;>
    simp [Plan.moveConstruct, Plan.construct, Engine.buildPlan, PlanState.Destroy,
      PlanState.IsNull, h]

/-- Claim C6: the engine's release-plan operation runs exactly once per live
handle — `Destroy` on a non-null handle releases it (one destroy-plan call)
and marks the plan null, the result of `Destroy` is always null, and a
further `Destroy` or destructor call on the now-null plan changes nothing. -/
theorem destroy_idempotent_single_release (p : PlanState) (e : Engine) :
    ((PlanState.Destroy p e).2.destroyCalls
        = e.destroyCalls + (if p.handle.isSome then 1 else 0))
      ∧ (PlanState.Destroy p e).1.IsNull = true
      ∧ PlanState.Destroy (PlanState.Destroy p e).1 (PlanState.Destroy p e).2
          = ((PlanState.Destroy p e).1, (PlanState.Destroy p e).2)
      ∧ PlanState.destructor (PlanState.Destroy p e).1 (PlanState.Destroy p e).2
          = ((PlanState.Destroy p e).1, (PlanState.Destroy p e).2) := by
  cases h : p.handle <;>
    simp [PlanState.Destroy, PlanState.destructor, PlanState.IsNull, h]

/-- Claim C5 counterexample: with rank 2 and a single supplied kind, the R2R
plan construction does not pad the kind list to rank and pass it to the
engine — the `kinds->size() == rank` assertion fails instead. -/
theorem r2r_kinds_no_padding_counterexample :
    ¬ (r2rEngineKinds 2 Direction.Forward [Kind.HC]
        = some ((specPaddedKinds 2 [Kind.HC]).map (fun k => k.call Direction.Forward))) := by
  decide

/-- Claim C5 (amended): the R2R plan construction requires the supplied kind
sequence to have length exactly `rank` (asserted); a sequence of that length
is passed to the engine unchanged, mapped through `operator()(direction)`,
and a sequence of any other length fails the assertion — no repeat-fill of
the last value occurs. -/
theorem r2r_kinds_exact_length_amended (rank : Int) (d : Direction) (kinds : List Kind) :
    ((kinds.length : Int) = rank →
        r2rEngineKinds rank d kinds = some (kinds.map (fun k => k.call d)))
      ∧ ((kinds.length : Int) ≠ rank → r2rEngineKinds rank d kinds = none) := by
  constructor <;> intro h <;> simp [r2rEngineKinds, h]

/-- Claim C5 witness: with rank 1 and one supplied kind the assertion holds
and the engine receives exactly that kind's code. -/
theorem r2r_kinds_exact_length_amended_witness :
    r2rEngineKinds 1 Direction.Forward [Kind.HC]
      = some ([Kind.HC].map (fun k => k.call Direction.Forward)) :=
  (r2r_kinds_exact_length_amended 1 Direction.Forward [Kind.HC]).1 (by decide)

/-- Claim C7: for a built plan, `Normalisation()` returns `1 / logicalSize`
with `logicalSize` the product of the output view's axis sizes for C2C, R2C
and C2R plans, and for R2R plans the product over axes of the kind's logical
dimension applied to the axis size.  The hypotheses are the construction-time
assertions of an R2R plan: `Transformable` and `kinds.size() == rank`. -/
theorem normalisation_logical_size (inL outL : DataLayout) (kinds : List Kind)
    (hbuilt : Transformable PairKind.R2R inL outL = true)
    (hk : (kinds.length : Int) = inL.rank) :
    NormalisationGeneral outL = 1 / ((outL.n.prod : Int) : ℚ)
      ∧ NormalisationR2R inL kinds
        = 1 / ((((outL.n.zip kinds).map (fun p => p.2.LogicalSize p.1)).prod : Int) : ℚ) := by
  have hnn : inL.n = outL.n := transformable_r2r_n_eq inL outL hbuilt
  constructor
  · unfold NormalisationGeneral
    rw [foldl_mul_int, one_mul]
  · unfold NormalisationR2R
    rw [hnn, foldl_logicalSize, one_mul]

/-- Claim C7 witness: a rank-1 R2R plan of size 4 with the DCT-I kind; the
general normalisation is `1/4` and the R2R normalisation is
`1 / (2 * (4 - 1)) = 1/6`. -/
theorem normalisation_logical_size_witness :
    NormalisationGeneral demoLayout = 1 / ((demoLayout.n.prod : Int) : ℚ)
      ∧ NormalisationR2R demoLayout [Kind.DCTI]
        = 1 / ((((demoLayout.n.zip [Kind.DCTI]).map
            (fun p => p.2.LogicalSize p.1)).prod : Int) : ℚ) :=
  normalisation_logical_size demoLayout demoLayout [Kind.DCTI] (by decide) (by decide)

/-- Claim C9 counterexample: the `DataLayout` overload of `GenerateWisdom`
(Plan.h:524-536) builds a plan even when the flag is `Estimate`, so the call
is not a no-op. -/
theorem generate_wisdom_estimate_counterexample :
    ¬ (generateWisdomDataLayoutPlansBuilt PlanOption.Estimate false = 0) := by
  decide

/-- Claim C9 (amended): the Layout-based `GenerateWisdom` overloads of
Wisdom.h return before building any plan when `flag == Estimate`, but the
`DataLayout` overloads of Plan.h never inspect the flag and build one plan
(two with `both`) regardless, including under `Estimate`. -/
theorem generate_wisdom_estimate_amended (forward backward both : Bool)
    (kinds : List RealKind) (flag : PlanOption) :
    generateWisdomPlansBuilt Flag.Estimate forward backward = 0
      ∧ generateWisdomPlansBuiltR2R Flag.Estimate kinds forward backward = 0
      ∧ generateWisdomDataLayoutPlansBuilt flag both = 1 + (if both then 1 else 0) := by
    refine ⟨?_, ?_, rfl⟩ <;>
      simp [generateWisdomPlansBuilt, generateWisdomPlansBuiltR2R]

/-- Claim C10: `EqualStorage` holds exactly when rank, howMany, `n` and
`embed` agree — `stride` and `dist` are never read — and consequently the
asserted preconditions of `Execute(newIn, newOut)` are invariant under
arbitrary changes to the new views' stride and dist. -/
theorem equal_storage_ignores_stride_dist (l1 l2 : DataLayout) (s1 d1 s2 d2 : Int)
    (k : PairKind) (oi oo ni no : DataLayout) (s d s' d' : Int) :
    (DataLayout.EqualStorage l1 l2 = true
        ↔ l1.rank = l2.rank ∧ l1.howMany = l2.howMany ∧ l1.n = l2.n ∧ l1.embed = l2.embed)
      ∧ DataLayout.EqualStorage { l1 with stride := s1, dist := d1 }
            { l2 with stride := s2, dist := d2 }
          = DataLayout.EqualStorage l1 l2
      ∧ ExecutePrecondition k oi oo { ni with stride := s, dist := d }
            { no with stride := s', dist := d' }
          = ExecutePrecondition k oi oo ni no := by
  refine ⟨?_, rfl, ?_⟩
  · by_cases h1 : l1.rank = l2.rank <;> by_cases h2 : l1.howMany = l2.howMany <;>
      by_cases h3 : l1.n = l2.n <;> by_cases h4 : l1.embed = l2.embed <;>
      simp [DataLayout.EqualStorage, h1, h2, h3, h4]
  · cases k <;> rfl

/-- Claim C2: the wisdom import/export wrappers assert that the engine's
return value equals `0`; since the engine reports success with a nonzero
value and failure with `0`, the assertion passes silently exactly on failure
and fires exactly on success — the opposite of surfacing failure.  Evaluated
at the two report values: on failure (`0`) both wrappers complete without
signalling, on success (`1`) both wrappers' assertions fail. -/
theorem wisdom_assert_inverted :
    ImportWisdomAssertPasses 0 = true ∧ engineReportsSuccess 0 = false
      ∧ ExportWisdomAssertPasses 1 = false ∧ engineReportsSuccess 1 = true := by
  decide

end FFTWpp
